import Mathlib

/-!
Shallow embedding of the authentication core of the legalizer backend
(Fastify + PostgreSQL). Time is modelled as `Nat` seconds. The relational
store is a pair of lists of rows (`users`, `refresh_tokens`) with the
SERIAL counters made explicit; SQL uniqueness violations are surfaced as
`Except` errors, matching the repository functions in `src/db/repository`
and the route handlers in `routes/auth`.
-/

namespace Legalizer

/-- A row of the `users` table
(`id SERIAL, email UNIQUE, password_hash, full_name NULL, is_verified, created_at`). -/
structure User where
  id : Nat
  email : String
  password_hash : String
  full_name : Option String
  is_verified : Bool
  created_at : Nat
deriving DecidableEq, Repr

/-- A row of the `refresh_tokens` table
(`id SERIAL, user_id FK, token UNIQUE, expires_at, created_at`). -/
structure RefreshToken where
  id : Nat
  user_id : Nat
  token : String
  expires_at : Nat
  created_at : Nat
deriving DecidableEq, Repr

/-- The relational store: the two tables the auth core touches, plus the
SERIAL counters supplying fresh primary keys. -/
structure DB where
  users : List User
  refresh_tokens : List RefreshToken
  nextUserId : Nat
  nextTokenId : Nat
deriving DecidableEq, Repr

/-- A store-level failure: the UNIQUE constraint on `users.email` or
`refresh_tokens.token` rejecting an INSERT. -/
inductive DbError where
  | uniqueViolation
deriving DecidableEq, Repr

/-- `createUser` from `src/db/repository`: INSERT INTO users returning the
row; the UNIQUE constraint on `email` rejects a duplicate. -/
def createUser (db : DB) (email passwordHash : String) (fullName : Option String)
    (now : Nat) : Except DbError (User × DB) :=
  if db.users.any (fun u => u.email = email) then
    .error .uniqueViolation
  else
    let u : User :=
      { id := db.nextUserId, email := email, password_hash := passwordHash,
        full_name := fullName, is_verified := false, created_at := now }
    .ok (u, { db with users := db.users ++ [u], nextUserId := db.nextUserId + 1 })

/-- `findUserByEmail`: SELECT * FROM users WHERE email = $1 (first row or null). -/
def findUserByEmail (db : DB) (email : String) : Option User :=
  db.users.find? (fun u => u.email = email)

/-- `findUserById`: SELECT * FROM users WHERE id = $1. -/
def findUserById (db : DB) (userId : Nat) : Option User :=
  db.users.find? (fun u => u.id = userId)

/-- `createRefreshToken`: INSERT INTO refresh_tokens returning the row; the
UNIQUE constraint on `token` rejects a duplicate value. -/
def createRefreshToken (db : DB) (userId : Nat) (token : String)
    (expiresAt now : Nat) : Except DbError (RefreshToken × DB) :=
  if db.refresh_tokens.any (fun rt => rt.token = token) then
    .error .uniqueViolation
  else
    let rt : RefreshToken :=
      { id := db.nextTokenId, user_id := userId, token := token,
        expires_at := expiresAt, created_at := now }
    .ok (rt, { db with refresh_tokens := db.refresh_tokens ++ [rt],
                       nextTokenId := db.nextTokenId + 1 })

/-- `findRefreshToken`: SELECT * FROM refresh_tokens
WHERE token = $1 AND expires_at > NOW(). The expiry filter is part of the
lookup itself. -/
def findRefreshToken (db : DB) (token : String) (now : Nat) : Option RefreshToken :=
  db.refresh_tokens.find? (fun rt => rt.token = token && decide (now < rt.expires_at))

/-- `deleteRefreshToken`: DELETE FROM refresh_tokens WHERE token = $1;
returns whether rowCount > 0 together with the new store state. -/
def deleteRefreshToken (db : DB) (token : String) : Bool × DB :=
  let remaining := db.refresh_tokens.filter (fun rt => rt.token ≠ token)
  (decide (remaining.length < db.refresh_tokens.length),
   { db with refresh_tokens := remaining })

/-- `deleteUserRefreshTokens`: DELETE FROM refresh_tokens WHERE user_id = $1. -/
def deleteUserRefreshTokens (db : DB) (userId : Nat) : DB :=
  { db with refresh_tokens := db.refresh_tokens.filter (fun rt => rt.user_id ≠ userId) }

/-- Environment configuration consumed by the auth core (`config.jwt`):
signing secret, access-token lifetime, refresh-token lifetime in days. -/
structure Config where
  accessSecret : String
  accessExpirySeconds : Nat
  refreshExpiryDays : Nat
deriving DecidableEq, Repr

/-- The defaults from `src/config/env.ts`: secret
"change-me-in-production-access", access expiry '15m', refresh expiry 7 days. -/
def defaultConfig : Config :=
  { accessSecret := "change-me-in-production-access",
    accessExpirySeconds := 900,
    refreshExpiryDays := 7 }

/-- The claim set signed into an access token (`JWTPayload` in `config/jwt`). -/
structure JWTPayload where
  userId : Nat
  email : String
deriving DecidableEq, Repr

/-- A signed access token, modelled structurally: the claims, the issued-at
and expiry timestamps added by `jwt.sign`, and the signature, modelled as the
symmetric secret that produced it (verification succeeds exactly when checked
against the same secret). -/
structure SignedToken where
  userId : Nat
  email : String
  iat : Nat
  exp : Nat
  sig : String
deriving DecidableEq, Repr

/-- `generateAccessToken` from `config/jwt`: jwt.sign(payload, accessSecret,
\x7bexpiresIn: accessExpiry\x7d); the expiry claim is issued-at plus the
configured lifetime. -/
def generateAccessToken (cfg : Config) (payload : JWTPayload) (now : Nat) : SignedToken :=
  { userId := payload.userId, email := payload.email,
    iat := now, exp := now + cfg.accessExpirySeconds, sig := cfg.accessSecret }

/-- `verifyAccessToken` from `config/jwt`: jwt.verify checks the signature
against the secret and rejects the token once the current time reaches the
`exp` claim; any failure yields null rather than an exception. -/
def verifyAccessToken (cfg : Config) (tok : SignedToken) (now : Nat) : Option JWTPayload :=
  if tok.sig = cfg.accessSecret ∧ now < tok.exp then
    some { userId := tok.userId, email := tok.email }
  else
    none

/-- `getRefreshTokenExpiry` from `config/jwt`: now plus the configured number
of days (86400 seconds each). -/
def getRefreshTokenExpiry (cfg : Config) (now : Nat) : Nat :=
  now + cfg.refreshExpiryDays * 86400

/-- JavaScript's `String.prototype.toLowerCase`, applied character-wise to
the underlying character list. -/
def lowerString (s : String) : String :=
  ⟨s.data.map Char.toLower⟩

/-- Modelled from the spec: `validateEmailFormat` of the missing
`src/utils/password.ts` — structural validation only: a single `@` with a
nonempty local part and a domain containing a dot. -/
def isValidEmail (s : String) : Bool :=
  match s.data.splitOn '@' with
  | [localPart, domain] => !localPart.isEmpty && domain.contains '.'
  | _ => false

/-- Result of password-policy validation: overall verdict plus every
violated rule. -/
structure PasswordValidation where
  valid : Bool
  errors : List String
deriving DecidableEq, Repr

/-- Modelled from the spec: `validatePasswordPolicy` of the missing
`src/utils/password.ts` — minimum length 8, an upper-case letter, a
lower-case letter and a digit; all violations are collected, not just the
first. -/
def isValidPassword (p : String) : PasswordValidation :=
  let errs :=
    (if p.length < 8 then ["Password must be at least 8 characters long"] else []) ++
    (if p.data.any Char.isUpper then [] else ["Password must contain an uppercase letter"]) ++
    (if p.data.any Char.isLower then [] else ["Password must contain a lowercase letter"]) ++
    (if p.data.any Char.isDigit then [] else ["Password must contain a digit"])
  { valid := errs.isEmpty, errors := errs }

/-- Modelled from the spec: `hash` of the missing `src/utils/password.ts`
(bcrypt). The salted digest is modelled as an injective tagging of the
plaintext, so that verification of the matching plaintext succeeds and of any
other plaintext fails. -/
def hashPassword (p : String) : String :=
  "bcrypt$10$" ++ p

/-- Modelled from the spec: `verify` of the missing `src/utils/password.ts`
— recompute and compare; a malformed stored hash is a verification failure,
not a crash. -/
def comparePassword (p storedHash : String) : Bool :=
  storedHash = hashPassword p

/-- The body of an HTTP reply sent by the auth routes, restricted to the
shapes the handlers actually produce. -/
inductive ReplyBody where
  | errMsg (msg : String)
  | errDetails (msg : String) (details : List String)
  | authOk (accessToken : SignedToken) (refreshToken : String)
      (userId : Nat) (email : String) (fullName : Option String)
  | accessOnly (accessToken : SignedToken)
  | successMsg (msg : String)
deriving DecidableEq, Repr

/-- An HTTP reply: status code and body. -/
structure Reply where
  status : Nat
  body : ReplyBody
deriving DecidableEq, Repr

/-- The register handler of `routes/auth`, with the two store snapshots made
explicit: `dbCheck` is the store the duplicate pre-check reads and `dbInsert`
the store the INSERT runs against (they differ only when a concurrent writer
intervenes between the two queries). A store-level error in the try block is
caught and answered with 500 "Failed to register user". `fresh` is the random
value produced by `generateRefreshToken`. Empty strings model the absent
fields that fail the `!email || !password` check. -/
def registerRaced (cfg : Config) (dbCheck dbInsert : DB) (email password : String)
    (fullName : Option String) (now : Nat) (fresh : String) : Reply × DB :=
  if email = "" || password = "" then
    (⟨400, .errMsg "Email and password are required"⟩, dbInsert)
  else if !(isValidEmail email) then
    (⟨400, .errMsg "Invalid email format"⟩, dbInsert)
  else if !(isValidPassword password).valid then
    (⟨400, .errDetails "Password does not meet requirements"
      (isValidPassword password).errors⟩, dbInsert)
  else
    match findUserByEmail dbCheck (lowerString email) with
    | some _ => (⟨409, .errMsg "User with this email already exists"⟩, dbInsert)
    | none =>
      match createUser dbInsert (lowerString email) (hashPassword password) fullName now with
      | .error _ => (⟨500, .errMsg "Failed to register user"⟩, dbInsert)
      | .ok (user, db1) =>
        match createRefreshToken db1 user.id fresh (getRefreshTokenExpiry cfg now) now with
        | .error _ => (⟨500, .errMsg "Failed to register user"⟩, db1)
        | .ok (_, db2) =>
          (⟨201, .authOk (generateAccessToken cfg ⟨user.id, user.email⟩ now)
            fresh user.id user.email user.full_name⟩, db2)

/-- The register handler in the absence of concurrent interference: the
pre-check and the INSERT read the same store. -/
def registerHandler (cfg : Config) (db : DB) (email password : String)
    (fullName : Option String) (now : Nat) (fresh : String) : Reply × DB :=
  registerRaced cfg db db email password fullName now fresh

/-- The login handler of `routes/auth`: find the user by lower-cased email
(401 with the generic message on miss), verify the password (same generic
401), then issue an access token and persist a new refresh token. -/
def loginHandler (cfg : Config) (db : DB) (email password : String)
    (now : Nat) (fresh : String) : Reply × DB :=
  if email = "" || password = "" then
    (⟨400, .errMsg "Email and password are required"⟩, db)
  else
    match findUserByEmail db (lowerString email) with
    | none => (⟨401, .errMsg "Invalid email or password"⟩, db)
    | some user =>
      if !(comparePassword password user.password_hash) then
        (⟨401, .errMsg "Invalid email or password"⟩, db)
      else
        let accessToken := generateAccessToken cfg ⟨user.id, user.email⟩ now
        match createRefreshToken db user.id fresh (getRefreshTokenExpiry cfg now) now with
        | .error _ => (⟨500, .errMsg "Failed to login"⟩, db)
        | .ok (_, db1) =>
          (⟨200, .authOk accessToken fresh user.id user.email user.full_name⟩, db1)

/-- The refresh handler of `routes/auth`: look up the token among the
non-expired rows (401 "Invalid or expired refresh token" on miss), load the
owning user (401 "User not found" on miss), then issue a new access token
only; the store is never written. -/
def refreshHandler (cfg : Config) (db : DB) (refreshToken : String)
    (now : Nat) : Reply × DB :=
  if refreshToken = "" then
    (⟨400, .errMsg "Refresh token is required"⟩, db)
  else
    match findRefreshToken db refreshToken now with
    | none => (⟨401, .errMsg "Invalid or expired refresh token"⟩, db)
    | some storedToken =>
      match findUserById db storedToken.user_id with
      | none => (⟨401, .errMsg "User not found"⟩, db)
      | some user =>
        (⟨200, .accessOnly (generateAccessToken cfg ⟨user.id, user.email⟩ now)⟩, db)

/-- The logout handler of `routes/auth`: delete the matching row (ignoring
whether one existed) and always answer success. -/
def logoutHandler (db : DB) (refreshToken : String) : Reply × DB :=
  if refreshToken = "" then
    (⟨400, .errMsg "Refresh token is required"⟩, db)
  else
    let res := deleteRefreshToken db refreshToken
    (⟨200, .successMsg "Logged out successfully"⟩, res.2)

/-- The logout-all handler of `routes/auth`: delete every refresh token of
the given user and answer success. `userId = 0` models the falsy `!userId`
check on the client-supplied identifier. -/
def logoutAllHandler (db : DB) (userId : Nat) : Reply × DB :=
  if userId = 0 then
    (⟨400, .errMsg "User ID is required"⟩, db)
  else
    (⟨200, .successMsg "Logged out from all devices"⟩,
     deleteUserRefreshTokens db userId)

end Legalizer

namespace Legalizer

/-- `createUser` success decomposed: the new store appends exactly the
returned row, whose email is the one passed in. -/
theorem createUser_ok {db : DB} {email ph : String} {fn : Option String}
    {now : Nat} {u : User} {db1 : DB}
    (h : createUser db email ph fn now = .ok (u, db1)) :
    db1.users = db.users ++ [u] ∧ u.email = email := by
  unfold createUser at h
  split at h
  · exact absurd h (by simp)
  · injection h with h
    injection h with h1 h2
    subst h1 h2
    exact ⟨rfl, rfl⟩

/-- `createRefreshToken` success never touches the `users` table and appends
exactly the returned row to `refresh_tokens`. -/
theorem createRefreshToken_ok {db : DB} {uid : Nat} {tok : String}
    {expAt now : Nat} {rt : RefreshToken} {db1 : DB}
    (h : createRefreshToken db uid tok expAt now = .ok (rt, db1)) :
    db1.users = db.users ∧ db1.refresh_tokens = db.refresh_tokens ++ [rt] := by
  unfold createRefreshToken at h
  split at h
  · exact absurd h (by simp)
  · injection h with h
    injection h with h1 h2
    subst h1 h2
    exact ⟨rfl, rfl⟩

end Legalizer

namespace Legalizer

/-- C1: under the UNIQUE constraint on token values, a stored refresh-token
row whose `expires_at` is not strictly later than the current time is
invisible to `findRefreshToken`: the lookup returns none, and returns exactly
what it would return if the row were erased from the store. -/
theorem c1_expired_row_invisible (db : DB) (rt : RefreshToken) (now : Nat)
    (hmem : rt ∈ db.refresh_tokens) (hexp : rt.expires_at ≤ now)
    (huniq : ∀ rt1 ∈ db.refresh_tokens, ∀ rt2 ∈ db.refresh_tokens,
      rt1.token = rt2.token → rt1 = rt2) :
    findRefreshToken db rt.token now = none ∧
    findRefreshToken db rt.token now =
      findRefreshToken
        { db with refresh_tokens := db.refresh_tokens.erase rt } rt.token now := by
  have key : ∀ x ∈ db.refresh_tokens,
      ¬ ((x.token = rt.token && decide (now < x.expires_at)) = true) := by
    intro x hx hcontra
    simp only [Bool.and_eq_true, decide_eq_true_eq] at hcontra
    have hx_eq : x = rt := huniq x hx rt hmem hcontra.1
    subst hx_eq
    exact absurd hcontra.2 (Nat.not_lt.mpr hexp)
  have h1 : findRefreshToken db rt.token now = none :=
    List.find?_eq_none.mpr key
  have h2 : findRefreshToken
      { db with refresh_tokens := db.refresh_tokens.erase rt } rt.token now = none :=
    List.find?_eq_none.mpr (fun x hx => key x (List.mem_of_mem_erase hx))
  exact ⟨h1, h1.trans h2.symm⟩

/-- C1 witness: a store holding one expired row (expiry 50, clock 50) on
which the lookup by that token value returns none. -/
theorem c1_witness :
    (⟨1, 1, "tok", 50, 0⟩ : RefreshToken) ∈
      (⟨[], [⟨1, 1, "tok", 50, 0⟩], 1, 2⟩ : DB).refresh_tokens ∧
    findRefreshToken ⟨[], [⟨1, 1, "tok", 50, 0⟩], 1, 2⟩ "tok" 50 = none := by
  refine ⟨by decide, ?_⟩
  exact (c1_expired_row_invisible ⟨[], [⟨1, 1, "tok", 50, 0⟩], 1, 2⟩
    ⟨1, 1, "tok", 50, 0⟩ 50 (by decide) (by decide) (by decide)).1

end Legalizer

namespace Legalizer

/-- C3: the refresh handler never writes the store — every call (successful
or not) returns the state unchanged, so the matching refresh-token row keeps
its token value, user and expiry, no row is created or deleted, and any later
refresh call on the resulting state behaves exactly as it would have on the
original state (the same token stays usable until its own expiry or an
explicit logout). -/
theorem c3_refresh_frame (cfg : Config) (db : DB) (tok : String) (now : Nat) :
    (refreshHandler cfg db tok now).2 = db ∧
    ∀ now2, refreshHandler cfg (refreshHandler cfg db tok now).2 tok now2 =
      refreshHandler cfg db tok now2 := by
  have hstate : (refreshHandler cfg db tok now).2 = db := by
    unfold refreshHandler
    split
    · rfl
    · split
      · rfl
      · split <;> rfl
  exact ⟨hstate, fun now2 => by rw [hstate]⟩

/-- C5: verifying a token produced by `generateAccessToken` returns the
original claims at any check time strictly before issue time plus the
configured lifetime, and returns invalid (none) once the lifetime has
elapsed. -/
theorem c5_access_token_roundtrip (cfg : Config) (userId : Nat) (email : String)
    (tIssue tCheck : Nat) :
    (tCheck < tIssue + cfg.accessExpirySeconds →
      verifyAccessToken cfg (generateAccessToken cfg ⟨userId, email⟩ tIssue) tCheck =
        some ⟨userId, email⟩) ∧
    (tIssue + cfg.accessExpirySeconds ≤ tCheck →
      verifyAccessToken cfg (generateAccessToken cfg ⟨userId, email⟩ tIssue) tCheck =
        none) := by
  unfold verifyAccessToken generateAccessToken
  constructor
  · intro h
    rw [if_pos ⟨rfl, h⟩]
  · intro h
    rw [if_neg]
    rintro ⟨-, hlt⟩
    exact absurd hlt (Nat.not_lt.mpr h)

/-- C5 witness: claims (7, "a@b.com") issued at time 100 with the default
15-minute lifetime verify back to themselves at time 999 and are invalid at
time 1000. -/
theorem c5_witness :
    verifyAccessToken defaultConfig
      (generateAccessToken defaultConfig ⟨7, "a@b.com"⟩ 100) 999 = some ⟨7, "a@b.com"⟩ ∧
    verifyAccessToken defaultConfig
      (generateAccessToken defaultConfig ⟨7, "a@b.com"⟩ 100) 1000 = none :=
  ⟨(c5_access_token_roundtrip defaultConfig 7 "a@b.com" 100 999).1 (by decide),
   (c5_access_token_roundtrip defaultConfig 7 "a@b.com" 100 1000).2 (by decide)⟩

/-- C7: for any non-empty token value, logout answers 200 success regardless
of whether a matching row exists, and a second logout with the same value
produces the same client-observable reply as the first. -/
theorem c7_logout_idempotent_success (db : DB) (tok : String) (h : tok ≠ "") :
    (logoutHandler db tok).1 = ⟨200, .successMsg "Logged out successfully"⟩ ∧
    (logoutHandler (logoutHandler db tok).2 tok).1 = (logoutHandler db tok).1 := by
  unfold logoutHandler
  rw [if_neg h]
  exact ⟨rfl, by rw [if_neg h]⟩

/-- C7 witness: logging out a token value absent from an empty store still
answers success, twice over. -/
theorem c7_witness :
    (logoutHandler ⟨[], [], 1, 1⟩ "t").1 =
      ⟨200, .successMsg "Logged out successfully"⟩ ∧
    (logoutHandler (logoutHandler ⟨[], [], 1, 1⟩ "t").2 "t").1 =
      (logoutHandler ⟨[], [], 1, 1⟩ "t").1 :=
  c7_logout_idempotent_success ⟨[], [], 1, 1⟩ "t" (by decide)

end Legalizer

namespace Legalizer

/-- C2 counterexample: refresh with an absent token and refresh with a valid
token whose owning user no longer exists both answer 401, but with different
bodies ("Invalid or expired refresh token" vs "User not found"), so the two
runs are distinguishable to the caller and the claimed uniform message fails
for the refresh pair. -/
theorem c2_refresh_messages_differ :
    (refreshHandler defaultConfig ⟨[], [⟨1, 7, "tok", 1000, 0⟩], 1, 2⟩ "tok" 5).1.status = 401 ∧
    (refreshHandler defaultConfig ⟨[], [], 1, 1⟩ "tok" 5).1.status = 401 ∧
    (refreshHandler defaultConfig ⟨[], [⟨1, 7, "tok", 1000, 0⟩], 1, 2⟩ "tok" 5).1 ≠
      (refreshHandler defaultConfig ⟨[], [], 1, 1⟩ "tok" 5).1 := by
  refine ⟨by decide, by decide, by decide⟩

/-- C2 amended: the two failing login runs (unknown email vs wrong password)
return the identical reply — 401 with the uniform "Invalid email or password"
— and the store untouched; the two failing refresh runs both return 401, but
with distinct bodies: "Invalid or expired refresh token" when the token row
is absent or expired and "User not found" when the row exists but its owning
user does not. -/
theorem c2_auth_failure_replies (cfg : Config) (db : DB) (e p tok : String)
    (now : Nat) (fresh : String) :
    (e ≠ "" → p ≠ "" → findUserByEmail db (lowerString e) = none →
      loginHandler cfg db e p now fresh =
        (⟨401, .errMsg "Invalid email or password"⟩, db)) ∧
    (∀ u, e ≠ "" → p ≠ "" → findUserByEmail db (lowerString e) = some u →
      comparePassword p u.password_hash = false →
      loginHandler cfg db e p now fresh =
        (⟨401, .errMsg "Invalid email or password"⟩, db)) ∧
    (tok ≠ "" → findRefreshToken db tok now = none →
      refreshHandler cfg db tok now =
        (⟨401, .errMsg "Invalid or expired refresh token"⟩, db)) ∧
    (∀ st, tok ≠ "" → findRefreshToken db tok now = some st →
      findUserById db st.user_id = none →
      refreshHandler cfg db tok now = (⟨401, .errMsg "User not found"⟩, db)) := by
  refine ⟨?_, ?_, ?_, ?_⟩
  · intro he hp hfind
    unfold loginHandler
    rw [if_neg (by simp [he, hp]), hfind]
  · intro u he hp hfind hpw
    unfold loginHandler
    rw [if_neg (by simp [he, hp]), hfind]
    simp [hpw]
  · intro ht hfind
    unfold refreshHandler
    rw [if_neg ht, hfind]
  · intro st ht hfind huser
    unfold refreshHandler
    rw [if_neg ht, hfind]
    simp [huser]

/-- C2 witness: the four failure branches realized on concrete stores — a
login against an empty store, a login with the right email and the wrong
password, a refresh against an empty store, and a refresh whose token row
points at a deleted user. -/
theorem c2_witness :
    loginHandler defaultConfig ⟨[], [], 1, 1⟩ "a@b.com" "pw" 0 "f" =
      (⟨401, .errMsg "Invalid email or password"⟩, ⟨[], [], 1, 1⟩) ∧
    loginHandler defaultConfig
        ⟨[⟨1, "a@b.com", hashPassword "Valid123", none, false, 0⟩], [], 2, 1⟩
        "a@b.com" "Wrong123" 0 "f" =
      (⟨401, .errMsg "Invalid email or password"⟩,
       ⟨[⟨1, "a@b.com", hashPassword "Valid123", none, false, 0⟩], [], 2, 1⟩) ∧
    refreshHandler defaultConfig ⟨[], [], 1, 1⟩ "tok" 5 =
      (⟨401, .errMsg "Invalid or expired refresh token"⟩, ⟨[], [], 1, 1⟩) ∧
    refreshHandler defaultConfig ⟨[], [⟨1, 7, "tok", 1000, 0⟩], 1, 2⟩ "tok" 5 =
      (⟨401, .errMsg "User not found"⟩, ⟨[], [⟨1, 7, "tok", 1000, 0⟩], 1, 2⟩) :=
  ⟨(c2_auth_failure_replies defaultConfig ⟨[], [], 1, 1⟩ "a@b.com" "pw" "" 0 "f").1
      (by decide) (by decide) (by decide),
   (c2_auth_failure_replies defaultConfig
        ⟨[⟨1, "a@b.com", hashPassword "Valid123", none, false, 0⟩], [], 2, 1⟩
        "a@b.com" "Wrong123" "" 0 "f").2.1
      ⟨1, "a@b.com", hashPassword "Valid123", none, false, 0⟩
      (by decide) (by decide) (by decide) (by decide),
   (c2_auth_failure_replies defaultConfig ⟨[], [], 1, 1⟩ "" "" "tok" 5 "f").2.2.1
      (by decide) (by decide),
   (c2_auth_failure_replies defaultConfig ⟨[], [⟨1, 7, "tok", 1000, 0⟩], 1, 2⟩
        "" "" "tok" 5 "f").2.2.2 ⟨1, 7, "tok", 1000, 0⟩
      (by decide) (by decide) (by decide)⟩

end Legalizer

namespace Legalizer

/-- C4: a register call that fails any validation (missing field, bad email
format, password-policy violation) or the duplicate-email pre-check answers
400 or 409 and performs no persistence write: the store afterwards is exactly
the store before. -/
theorem c4_register_rejection_no_write (cfg : Config) (db : DB) (e p : String)
    (fn : Option String) (now : Nat) (fresh : String)
    (h : e = "" ∨ p = "" ∨ isValidEmail e = false ∨
      (isValidPassword p).valid = false ∨
      (findUserByEmail db (lowerString e)).isSome = true) :
    (registerHandler cfg db e p fn now fresh).2 = db ∧
    ((registerHandler cfg db e p fn now fresh).1.status = 400 ∨
     (registerHandler cfg db e p fn now fresh).1.status = 409) := by
  unfold registerHandler registerRaced
  by_cases hc1 : (e = "" || p = "") = true
  · rw [if_pos hc1]
    exact ⟨rfl, .inl rfl⟩
  · rw [if_neg hc1]
    by_cases hc2 : (!(isValidEmail e)) = true
    · rw [if_pos hc2]
      exact ⟨rfl, .inl rfl⟩
    · rw [if_neg hc2]
      by_cases hc3 : (!(isValidPassword p).valid) = true
      · rw [if_pos hc3]
        exact ⟨rfl, .inl rfl⟩
      · rw [if_neg hc3]
        have hsome : (findUserByEmail db (lowerString e)).isSome = true := by
          rcases h with h | h | h | h | h
          · exact absurd (by simp [h]) hc1
          · exact absurd (by simp [h]) hc1
          · exact absurd (by simp [h]) hc2
          · exact absurd (by simp [h]) hc3
          · exact h
        obtain ⟨u, hu⟩ := Option.isSome_iff_exists.mp hsome
        rw [hu]
        exact ⟨rfl, .inr rfl⟩

/-- C4 witness: registering with a malformed email against an empty store
answers 400 and leaves the store empty. -/
theorem c4_witness :
    (registerHandler defaultConfig ⟨[], [], 1, 1⟩ "not-an-email" "Valid123"
        none 0 "f").2 = ⟨[], [], 1, 1⟩ ∧
    ((registerHandler defaultConfig ⟨[], [], 1, 1⟩ "not-an-email" "Valid123"
        none 0 "f").1.status = 400 ∨
     (registerHandler defaultConfig ⟨[], [], 1, 1⟩ "not-an-email" "Valid123"
        none 0 "f").1.status = 409) :=
  c4_register_rejection_no_write defaultConfig ⟨[], [], 1, 1⟩ "not-an-email"
    "Valid123" none 0 "f" (.inr (.inr (.inl (by decide))))

/-- C6: after logout-all for a user (with a nonzero client-supplied id), a
refresh call with any non-empty token value that only ever belonged to that
user answers 401 "Invalid or expired refresh token" — no refresh token of
that user remains usable. -/
theorem c6_logout_all_revokes (cfg : Config) (db : DB) (userId : Nat)
    (tok : String) (now : Nat)
    (huser : userId ≠ 0) (htok : tok ≠ "")
    (hown : ∀ rt ∈ db.refresh_tokens, rt.token = tok → rt.user_id = userId) :
    (refreshHandler cfg (logoutAllHandler db userId).2 tok now).1 =
      ⟨401, .errMsg "Invalid or expired refresh token"⟩ := by
  have hstate : (logoutAllHandler db userId).2 = deleteUserRefreshTokens db userId := by
    unfold logoutAllHandler
    rw [if_neg huser]
  have hnone : findRefreshToken (deleteUserRefreshTokens db userId) tok now = none := by
    apply List.find?_eq_none.mpr
    intro rt hrt hcontra
    simp only [Bool.and_eq_true, decide_eq_true_eq] at hcontra
    have hrt' := List.mem_filter.mp hrt
    have : rt.user_id = userId := hown rt hrt'.1 hcontra.1
    simp [this] at hrt'
  rw [hstate]
  unfold refreshHandler
  rw [if_neg htok, hnone]

/-- C6 witness: a store with two refresh tokens of user 3; after logout-all
for user 3, refreshing with the first of them answers 401. -/
theorem c6_witness :
    (refreshHandler defaultConfig
      (logoutAllHandler ⟨[⟨3, "a@b.com", "h", none, false, 0⟩],
        [⟨1, 3, "t1", 1000, 0⟩, ⟨2, 3, "t2", 1000, 0⟩], 4, 3⟩ 3).2 "t1" 5).1 =
      ⟨401, .errMsg "Invalid or expired refresh token"⟩ :=
  c6_logout_all_revokes defaultConfig
    ⟨[⟨3, "a@b.com", "h", none, false, 0⟩],
     [⟨1, 3, "t1", 1000, 0⟩, ⟨2, 3, "t2", 1000, 0⟩], 4, 3⟩ 3 "t1" 5
    (by decide) (by decide) (by decide)

end Legalizer

namespace Legalizer

/-- A register call that answers 201 has added to the store a user row whose
email is the lower-cased requested email. -/
theorem register_201_adds_user (cfg : Config) (db : DB) (e p : String)
    (fn : Option String) (now : Nat) (fresh : String)
    (h201 : (registerHandler cfg db e p fn now fresh).1.status = 201) :
    ∃ u ∈ (registerHandler cfg db e p fn now fresh).2.users,
      u.email = lowerString e := by
  unfold registerHandler registerRaced at h201 ⊢
  by_cases hc1 : (e = "" || p = "") = true
  · rw [if_pos hc1] at h201 ⊢
    simp at h201
  · rw [if_neg hc1] at h201 ⊢
    by_cases hc2 : (!(isValidEmail e)) = true
    · rw [if_pos hc2] at h201 ⊢
      simp at h201
    · rw [if_neg hc2] at h201 ⊢
      by_cases hc3 : (!(isValidPassword p).valid) = true
      · rw [if_pos hc3] at h201 ⊢
        simp at h201
      · rw [if_neg hc3] at h201 ⊢
        cases hfind : findUserByEmail db (lowerString e) with
        | some u =>
          rw [hfind] at h201
          simp at h201
        | none =>
          rw [hfind] at h201
          cases hcu : createUser db (lowerString e) (hashPassword p) fn now with
          | error err =>
            rw [hcu] at h201
            simp at h201
          | ok pr =>
            obtain ⟨user, db1⟩ := pr
            rw [hcu] at h201
            simp only [] at h201
            cases hcrt : createRefreshToken db1 user.id fresh
                (getRefreshTokenExpiry cfg now) now with
            | error err =>
              rw [hcrt] at h201
              simp at h201
            | ok pr2 =>
              obtain ⟨rt, db2⟩ := pr2
              obtain ⟨hu1, hu2⟩ := createUser_ok hcu
              obtain ⟨hr1, -⟩ := createRefreshToken_ok hcrt
              refine ⟨user, ?_, hu2⟩
              simp only []
              rw [hcrt]
              simp [hr1, hu1]

end Legalizer

namespace Legalizer

/-- C8: after a successful (201) registration, a second registration whose
email lower-cases to the same address — any casing, with otherwise valid
input — answers 409 Conflict and creates no second user row: the store is
unchanged by the second call. -/
theorem c8_duplicate_email_conflict (cfg : Config) (db : DB)
    (e1 p1 : String) (fn1 : Option String) (now1 : Nat) (f1 : String)
    (e2 p2 : String) (fn2 : Option String) (now2 : Nat) (f2 : String)
    (h201 : (registerHandler cfg db e1 p1 fn1 now1 f1).1.status = 201)
    (hsame : lowerString e2 = lowerString e1)
    (he2 : e2 ≠ "") (hp2 : p2 ≠ "")
    (hve2 : isValidEmail e2 = true) (hvp2 : (isValidPassword p2).valid = true) :
    registerHandler cfg (registerHandler cfg db e1 p1 fn1 now1 f1).2
        e2 p2 fn2 now2 f2 =
      (⟨409, .errMsg "User with this email already exists"⟩,
       (registerHandler cfg db e1 p1 fn1 now1 f1).2) := by
  obtain ⟨u, hu_mem, hu_email⟩ := register_201_adds_user cfg db e1 p1 fn1 now1 f1 h201
  generalize hdb1 : (registerHandler cfg db e1 p1 fn1 now1 f1).2 = db1 at hu_mem ⊢
  have hfind : (findUserByEmail db1 (lowerString e2)).isSome = true := by
    rw [hsame]
    exact List.find?_isSome.mpr ⟨u, hu_mem, by simp [hu_email]⟩
  obtain ⟨u2, hu2⟩ := Option.isSome_iff_exists.mp hfind
  unfold registerHandler registerRaced
  rw [if_neg (by simp [he2, hp2]), if_neg (by simp [hve2]),
    if_neg (by simp [hvp2]), hu2]

/-- C8 witness: registering "a@b.com" on an empty store answers 201; then
registering "A@B.com" with a valid password answers 409 and leaves the store
exactly as it was after the first call. -/
theorem c8_witness :
    registerHandler defaultConfig
        (registerHandler defaultConfig ⟨[], [], 1, 1⟩ "a@b.com" "Valid123"
          none 0 "f1").2 "A@B.com" "Other123" none 9 "f2" =
      (⟨409, .errMsg "User with this email already exists"⟩,
       (registerHandler defaultConfig ⟨[], [], 1, 1⟩ "a@b.com" "Valid123"
          none 0 "f1").2) :=
  c8_duplicate_email_conflict defaultConfig ⟨[], [], 1, 1⟩ "a@b.com" "Valid123"
    none 0 "f1" "A@B.com" "Other123" none 9 "f2"
    (by decide) (by decide) (by decide) (by decide) (by decide) (by decide)

end Legalizer

namespace Legalizer

/-- C9 counterexample: a register run whose duplicate pre-check reads a store
without the email but whose INSERT runs against a store a concurrent
registration has already populated (the TOCTOU race) answers 500 "Failed to
register user" — the catch-all internal failure — while a run whose pre-check
itself finds the duplicate answers 409 Conflict; the two failures are not
equivalent, refuting the claim. -/
theorem c9_race_not_conflict :
    (registerRaced defaultConfig ⟨[], [], 1, 1⟩
        ⟨[⟨1, "a@b.com", "h", none, false, 0⟩], [], 2, 1⟩
        "a@b.com" "Valid123" none 0 "f").1 =
      ⟨500, .errMsg "Failed to register user"⟩ ∧
    (registerRaced defaultConfig ⟨[⟨1, "a@b.com", "h", none, false, 0⟩], [], 2, 1⟩
        ⟨[⟨1, "a@b.com", "h", none, false, 0⟩], [], 2, 1⟩
        "a@b.com" "Valid123" none 0 "f").1 =
      ⟨409, .errMsg "User with this email already exists"⟩ ∧
    (registerRaced defaultConfig ⟨[], [], 1, 1⟩
        ⟨[⟨1, "a@b.com", "h", none, false, 0⟩], [], 2, 1⟩
        "a@b.com" "Valid123" none 0 "f").1 ≠
      (registerRaced defaultConfig ⟨[⟨1, "a@b.com", "h", none, false, 0⟩], [], 2, 1⟩
        ⟨[⟨1, "a@b.com", "h", none, false, 0⟩], [], 2, 1⟩
        "a@b.com" "Valid123" none 0 "f").1 := by
  refine ⟨by decide, by decide, by decide⟩

/-- C9 amended: when the duplicate pre-check passes on its snapshot but the
INSERT hits the uniqueness constraint because the insert-time store already
holds a user with the normalized email, the handler's catch-all answers the
generic internal failure 500 "Failed to register user" (not 409 Conflict) and
the insert-time store is returned unchanged. -/
theorem c9_race_internal_error (cfg : Config) (dbCheck dbInsert : DB)
    (e p : String) (fn : Option String) (now : Nat) (fresh : String)
    (he : e ≠ "") (hp : p ≠ "")
    (hve : isValidEmail e = true) (hvp : (isValidPassword p).valid = true)
    (hpre : findUserByEmail dbCheck (lowerString e) = none)
    (hdup : ∃ u ∈ dbInsert.users, u.email = lowerString e) :
    registerRaced cfg dbCheck dbInsert e p fn now fresh =
      (⟨500, .errMsg "Failed to register user"⟩, dbInsert) := by
  unfold registerRaced
  rw [if_neg (by simp [he, hp]), if_neg (by simp [hve]),
    if_neg (by simp [hvp]), hpre]
  have hins : createUser dbInsert (lowerString e) (hashPassword p) fn now =
      .error .uniqueViolation := by
    unfold createUser
    rw [if_pos]
    obtain ⟨u, hu_mem, hu_email⟩ := hdup
    exact List.any_eq_true.mpr ⟨u, hu_mem, by simp [hu_email]⟩
  rw [hins]

/-- C9 witness: the race realized — empty pre-check snapshot, insert-time
store already holding "a@b.com" — answers 500 with the insert-time store
unchanged. -/
theorem c9_witness :
    registerRaced defaultConfig ⟨[], [], 1, 1⟩
        ⟨[⟨1, "a@b.com", "h", none, false, 0⟩], [], 2, 1⟩
        "a@b.com" "Valid123" none 0 "f" =
      (⟨500, .errMsg "Failed to register user"⟩,
       ⟨[⟨1, "a@b.com", "h", none, false, 0⟩], [], 2, 1⟩) :=
  c9_race_internal_error defaultConfig ⟨[], [], 1, 1⟩
    ⟨[⟨1, "a@b.com", "h", none, false, 0⟩], [], 2, 1⟩
    "a@b.com" "Valid123" none 0 "f"
    (by decide) (by decide) (by decide) (by decide) (by decide)
    ⟨⟨1, "a@b.com", "h", none, false, 0⟩, by decide, by decide⟩

end Legalizer

namespace Legalizer

/-- C10: no auth operation deletes or mutates an existing user row. Register
(with both store snapshots arbitrary, covering the raced case) either leaves
the user table unchanged or appends exactly one new row to it; login,
refresh, logout and logout-all leave the user table exactly as it was. -/
theorem c10_user_rows_preserved (cfg : Config) (dbc dbi db : DB)
    (e p tok : String) (fn : Option String) (now : Nat) (fresh : String)
    (uid : Nat) :
    ((registerRaced cfg dbc dbi e p fn now fresh).2.users = dbi.users ∨
      ∃ u, (registerRaced cfg dbc dbi e p fn now fresh).2.users =
        dbi.users ++ [u]) ∧
    (loginHandler cfg db e p now fresh).2.users = db.users ∧
    (refreshHandler cfg db tok now).2.users = db.users ∧
    (logoutHandler db tok).2.users = db.users ∧
    (logoutAllHandler db uid).2.users = db.users := by
  refine ⟨?_, ?_, ?_, ?_, ?_⟩
  · unfold registerRaced
    by_cases hc1 : (e = "" || p = "") = true
    · rw [if_pos hc1]
      exact .inl rfl
    · rw [if_neg hc1]
      by_cases hc2 : (!(isValidEmail e)) = true
      · rw [if_pos hc2]
        exact .inl rfl
      · rw [if_neg hc2]
        by_cases hc3 : (!(isValidPassword p).valid) = true
        · rw [if_pos hc3]
          exact .inl rfl
        · rw [if_neg hc3]
          cases hfind : findUserByEmail dbc (lowerString e) with
          | some u => exact .inl rfl
          | none =>
            cases hcu : createUser dbi (lowerString e) (hashPassword p) fn now with
            | error err => exact .inl rfl
            | ok pr =>
              obtain ⟨user, db1⟩ := pr
              obtain ⟨hu1, -⟩ := createUser_ok hcu
              simp only []
              cases hcrt : createRefreshToken db1 user.id fresh
                  (getRefreshTokenExpiry cfg now) now with
              | error err => exact .inr ⟨user, hu1⟩
              | ok pr2 =>
                obtain ⟨rt, db2⟩ := pr2
                obtain ⟨hr1, -⟩ := createRefreshToken_ok hcrt
                exact .inr ⟨user, hr1.trans hu1⟩
  · unfold loginHandler
    split
    · rfl
    · split
      · rfl
      · split
        · rfl
        · split
          · rfl
          next fst db1 heq => exact (createRefreshToken_ok heq).1
  · unfold refreshHandler
    split
    · rfl
    · split
      · rfl
      · split <;> rfl
  · unfold logoutHandler
    split <;> rfl
  · unfold logoutAllHandler
    split <;> rfl

end Legalizer
